import Mathlib

/-!
Verification development for the GameScope client-side data-synchronization
layer.  Each screen operation cited by the specification is embedded as a
pure Lean function over explicit state (in-memory record lists, the backend
document store, and a trace of backend requests), translated directly from
the TypeScript source.
-/

set_option maxHeartbeats 1000000

namespace GameScope

/-- Whitespace stripped from both ends of a character list. -/
def trimChars (l : List Char) : List Char :=
  ((l.dropWhile Char.isWhitespace).reverse.dropWhile Char.isWhitespace).reverse

/-- An executable model of JavaScript String.prototype.trim. -/
def jsTrim (s : String) : String :=
  String.mk (trimChars s.data)

/-- True when the character list pat occurs contiguously inside s. -/
def hasInfix (s pat : List Char) : Bool :=
  if pat.isPrefixOf s then true
  else
    match s with
    | [] => false
    | _ :: rest => hasInfix rest pat

/-- A substring test mirroring JavaScript String.prototype.includes. -/
def msgIncludes (msg pat : String) : Bool :=
  hasInfix msg.toList pat.toList

/-- A route parameter as delivered by useLocalSearchParams: a string, an
array of strings, or absent. -/
inductive Param where
  | str (s : String)
  | strList (l : List String)
  | missing
deriving Repr, DecidableEq

/-- The authenticated user record returned by account.get. -/
structure User where
  id : String
  name : String
  email : String
deriving Repr, DecidableEq

/-- A review document (interface Review in the game-detail screen). -/
structure Review where
  id : String
  gameId : String
  userId : String
  userName : String
  content : String
  timestamp : String
deriving Repr, DecidableEq

/-- A game document (interface Game in the game-detail screen). -/
structure Game where
  id : String
  title : String
  image : String
  category : String
  platform : String
  releaseDate : String
  summary : String
deriving Repr, DecidableEq

/-- A favorite document (interface Favorite in the game-detail screen). -/
structure Favorite where
  id : String
  userId : String
  gameId : String
  gameTitle : String
  gameImage : String
deriving Repr, DecidableEq

end GameScope

namespace GameScope.GameDetail

/-! Embedding of the fully validated GameDetailScreen (src/unnamed/part_000,
lines 586 onward): validateGameId, handleError, fetchGame, fetchReviews,
validateReviewContent, submitReview, checkIfFavorite, toggleFavorite. -/

/-- ERROR_MESSAGES.GAME_NOT_FOUND. -/
def GAME_NOT_FOUND : String := "Game not found. Please try again later."

/-- ERROR_MESSAGES.NETWORK_ERROR. -/
def NETWORK_ERROR : String := "Network error. Please check your connection."

/-- ERROR_MESSAGES.AUTHENTICATION_ERROR. -/
def AUTHENTICATION_ERROR : String := "Authentication failed. Please log in again."

/-- ERROR_MESSAGES.GENERIC_ERROR. -/
def GENERIC_ERROR : String := "Something went wrong. Please try again later."

/-- ERROR_MESSAGES.INVALID_GAME_ID. -/
def INVALID_GAME_ID : String := "Invalid game ID provided."

/-- A raw JavaScript error value as seen by handleError: either not an
object carrying a message field (null, a string, a number, an object
without message), or an object with a message string. -/
inductive ErrValue where
  | nonObject
  | obj (message : String)
deriving Repr, DecidableEq

/-- handleError from the game-detail screen: picks a user-facing message by
substring matching on the raw message and falls back to GENERIC_ERROR. -/
def handleError (error : ErrValue) : String :=
  match error with
  | ErrValue.nonObject => GENERIC_ERROR
  | ErrValue.obj message =>
    if msgIncludes message "network" || msgIncludes message "fetch" then
      NETWORK_ERROR
    else if msgIncludes message "unauthorized" || msgIncludes message "authentication" then
      AUTHENTICATION_ERROR
    else if msgIncludes message "not found" then
      GAME_NOT_FOUND
    else
      GENERIC_ERROR

/-- validateGameId: the route parameter must be a string of positive length. -/
def validateGameId (gameId : Param) : Bool :=
  match gameId with
  | Param.str s => s.length > 0
  | _ => false

/-- The TypeScript cast id as string applied to the route parameter. -/
def paramString (p : Param) : String :=
  match p with
  | Param.str s => s
  | _ => ""

/-- Outcome of fetchGame: the game state, the message of any error raised
inside the try block, the user-facing error state set by handleError, and
the list of document ids actually requested from the backend. -/
structure FetchGameResult where
  game : Option Game
  thrownMsg : Option String
  errorState : Option String
  requests : List String
deriving Repr, DecidableEq

/-- fetchGame: validates the route id, then requests the document; a
response without a title is rejected; every failure funnels through
handleError. The backend is a function from document id to a result. -/
def fetchGame (id : Param) (getDocument : String → Except ErrValue Game) :
    FetchGameResult :=
  if validateGameId id then
    match getDocument (paramString id) with
    | Except.ok response =>
      if response.title = "" then
        { game := none
          thrownMsg := some "Invalid game data received"
          errorState := some (handleError (ErrValue.obj "Invalid game data received"))
          requests := [paramString id] }
      else
        { game := some response
          thrownMsg := none
          errorState := none
          requests := [paramString id] }
    | Except.error e =>
      { game := none
        thrownMsg := none
        errorState := some (handleError e)
        requests := [paramString id] }
  else
    { game := none
      thrownMsg := some INVALID_GAME_ID
      errorState := some (handleError (ErrValue.obj INVALID_GAME_ID))
      requests := [] }

/-- fetchReviews: on success replaces the review list with the fetched
documents; on an invalid id or any backend error the previous in-memory
reviews are kept (the source comment: do not reset reviews on error). -/
def fetchReviews (id : Param) (listResult : Except ErrValue (List Review))
    (prevReviews : List Review) : List Review :=
  if validateGameId id then
    match listResult with
    | Except.ok docs => docs
    | Except.error _ => prevReviews
  else
    prevReviews

/-- validateReviewContent: the trimmed content must have length in 1..500. -/
def validateReviewContent (content : String) : Bool :=
  let trimmedContent := jsTrim content
  if trimmedContent.length = 0 then false
  else if trimmedContent.length > 500 then false
  else true

/-- Outcome of submitReview: the review list afterwards, whether the create
call reached the backend, and whether the submission was accepted. -/
structure SubmitResult where
  reviews : List Review
  backendCalled : Bool
  accepted : Bool
deriving Repr, DecidableEq

/-- submitReview: rejects invalid content before any backend call;
otherwise creates the document (userName falls back to Anonymous User on an
empty name, content is trimmed) and prepends the response to the list. -/
def submitReview (id : Param) (user : User) (newReview : String)
    (assignedId : String) (now : String) (prevReviews : List Review) :
    SubmitResult :=
  if validateReviewContent newReview then
    let reviewData : Review :=
      { id := assignedId
        gameId := paramString id
        userId := user.id
        userName := if user.name = "" then "Anonymous User" else user.name
        content := jsTrim newReview
        timestamp := now }
    { reviews := reviewData :: prevReviews, backendCalled := true, accepted := true }
  else
    { reviews := prevReviews, backendCalled := false, accepted := false }

/-- One request issued against the favorites collection. -/
inductive BackendOp where
  | queryFavorites (userId gameId : String)
  | createFavorite (userId gameId : String)
  | deleteFavorite (docId : String)
deriving Repr, DecidableEq

/-- The favorites matching an equality query on userId and gameId. -/
def favoritesFor (favorites : List Favorite) (userId gameId : String) :
    List Favorite :=
  favorites.filter (fun f => f.userId == userId && f.gameId == gameId)

/-- checkIfFavorite: the cached flag is whether the query returned at least
one document. -/
def checkIfFavorite (favorites : List Favorite) (userId gameId : String) : Bool :=
  (favoritesFor favorites userId gameId).length > 0

/-- The document id assigned by ID.unique for the n-th created document. -/
def mkDocId (n : Nat) : String :=
  "doc_" ++ toString n

/-- The favorites side of the world: the backend collection, the screen's
cached isFavorite flag, and a counter feeding fresh document ids. -/
structure FavState where
  favorites : List Favorite
  isFavorite : Bool
  nextId : Nat
deriving Repr, DecidableEq

/-- toggleFavorite: when the cached flag is set, queries for the matching
favorites and deletes the first one if present; otherwise creates a new
favorite with no prior query. Returns the new state and the request trace. -/
def toggleFavorite (user : User) (game : Game) (id : Param) (s : FavState) :
    FavState × List BackendOp :=
  if s.isFavorite then
    let existing := favoritesFor s.favorites user.id (paramString id)
    match existing with
    | [] =>
      ({ s with isFavorite := false },
       [BackendOp.queryFavorites user.id (paramString id)])
    | f :: _ =>
      ({ s with
          favorites := s.favorites.filter (fun x => !(x.id == f.id))
          isFavorite := false },
       [BackendOp.queryFavorites user.id (paramString id),
        BackendOp.deleteFavorite f.id])
  else
    let favoriteData : Favorite :=
      { id := mkDocId s.nextId
        userId := user.id
        gameId := paramString id
        gameTitle := game.title
        gameImage := game.image }
    ({ favorites := s.favorites ++ [favoriteData]
       isFavorite := true
       nextId := s.nextId + 1 },
     [BackendOp.createFavorite user.id (paramString id)])

/-- Iterated favorite toggles: toggleTimes n s applies toggleFavorite n
times, threading the screen state. -/
def toggleTimes (user : User) (game : Game) (id : Param) :
    Nat → FavState → FavState
  | 0, s => s
  | n + 1, s => toggleTimes user game id n (toggleFavorite user game id s).1

theorem toggleFavorite_of_not_fav (user : User) (game : Game) (id : Param)
    (s : FavState) (h : s.isFavorite = false) :
    toggleFavorite user game id s
      = ({ favorites := s.favorites ++
            [{ id := mkDocId s.nextId, userId := user.id, gameId := paramString id,
               gameTitle := game.title, gameImage := game.image }]
           isFavorite := true
           nextId := s.nextId + 1 },
         [BackendOp.createFavorite user.id (paramString id)]) := by
  simp [toggleFavorite, h]

theorem toggleFavorite_of_fav_match (user : User) (game : Game) (id : Param)
    (s : FavState) (f : Favorite) (rest : List Favorite)
    (h : s.isFavorite = true)
    (hm : favoritesFor s.favorites user.id (paramString id) = f :: rest) :
    toggleFavorite user game id s
      = ({ s with
            favorites := s.favorites.filter (fun x => !(x.id == f.id))
            isFavorite := false },
         [BackendOp.queryFavorites user.id (paramString id),
          BackendOp.deleteFavorite f.id]) := by
  simp only [toggleFavorite, h, if_true, hm]

theorem favoritesFor_append (a b : List Favorite) (u g : String) :
    favoritesFor (a ++ b) u g = favoritesFor a u g ++ favoritesFor b u g := by
  simp [favoritesFor]

theorem filter_out_appended (a : List Favorite) (v : Favorite)
    (h : ∀ x ∈ a, x.id ≠ v.id) :
    (a ++ [v]).filter (fun x => !(x.id == v.id)) = a := by
  rw [List.filter_append]
  have ha : a.filter (fun x => !(x.id == v.id)) = a :=
    List.filter_eq_self.mpr (fun x hx => by simp [h x hx])
  simp [ha]

end GameScope.GameDetail

namespace GameScope.Home

open GameScope

/-! Embedding of the HomeScreen game-catalog fetch
(src/app/(tabs)/index.tsx): parseGame and fetchGames. -/

/-- A raw catalog document as returned by listDocuments; an empty string
models a missing or empty (falsy) field. -/
structure RawGameDoc where
  docId : String
  title : String
  category : String
  platform : String
  releaseDate : String
  summary : String
  image : String
deriving Repr, DecidableEq

/-- parseGame: a document missing a required field is replaced by the safe
fallback record built in the parse-error handler; otherwise each optional
field falls back to a placeholder. fallbackId models the generated
fallback identifier built from Date.now. -/
def parseGame (fallbackId : String) (doc : RawGameDoc) : Game :=
  if doc.docId = "" || doc.title = "" || doc.category = "" then
    { id := if doc.docId = "" then fallbackId else doc.docId
      title := "Unknown Game"
      category := "Unknown"
      platform := "Unknown Platform"
      releaseDate := "Unknown Date"
      summary := "Game data could not be loaded properly"
      image := "" }
  else
    { id := doc.docId
      title := if doc.title = "" then "Unknown Title" else doc.title
      category := if doc.category = "" then "Unknown" else doc.category
      platform := if doc.platform = "" then "Unknown Platform" else doc.platform
      releaseDate := if doc.releaseDate = "" then "Unknown Date" else doc.releaseDate
      summary := if doc.summary = "" then "No summary available" else doc.summary
      image := doc.image }

/-- fetchGames: on success the games state becomes the parsed documents; on
any fetch error the games state is set to the empty array (the source sets
an empty array on error to prevent UI crashes). -/
def fetchGames (result : Except GameDetail.ErrValue (List RawGameDoc))
    (fallbackId : String) (prevGames : List Game) : List Game :=
  match result with
  | Except.ok docs => docs.map (parseGame fallbackId)
  | Except.error _ => []

end GameScope.Home

namespace GameScope.Profile

open GameScope

/-! Embedding of the enhanced ProfileScreen (src/unnamed/part_005):
updateName with its review fan-out, and deleteReview with its NotFound
downgrade. -/

/-- Outcome of updateName as reported to the user. -/
inductive NameOutcome where
  | emptyNameError
  | noChange
  | tooLongError
  | success
  | successPartialWarning
  | failure
deriving Repr, DecidableEq

/-- The state updateName acts on: the auth-service account name, the
backend review collection and the screen's in-memory review list. -/
structure NameUpdateState where
  accountName : String
  backendReviews : List Review
  localReviews : List Review
deriving Repr, DecidableEq

/-- updateName: validates the trimmed name (non-empty, changed, at most 50
characters), updates the account name, then fans the new name out to every
review with the user's id, patching local state only when the fan-out
succeeds. accountOk and fanOutOk model the two backend calls; when the
fan-out fails the operation still succeeds overall and surfaces the
distinct partial-update warning (the backend reviews are then only
partially written, which this model leaves at their input value). -/
def updateName (user : User) (newName : String) (accountOk fanOutOk : Bool)
    (s : NameUpdateState) : NameUpdateState × NameOutcome :=
  let trimmedName := jsTrim newName
  if trimmedName = "" then (s, NameOutcome.emptyNameError)
  else if trimmedName = user.name then (s, NameOutcome.noChange)
  else if trimmedName.length > 50 then (s, NameOutcome.tooLongError)
  else if accountOk then
    if fanOutOk then
      ({ accountName := trimmedName
         backendReviews := s.backendReviews.map
           (fun r => if r.userId == user.id then { r with userName := trimmedName } else r)
         localReviews := s.localReviews.map
           (fun r => if r.userId == user.id then { r with userName := trimmedName } else r) },
       NameOutcome.success)
    else
      ({ s with accountName := trimmedName }, NameOutcome.successPartialWarning)
  else
    (s, NameOutcome.failure)

/-- Outcome of deleteReview as reported to the user. -/
inductive DeleteOutcome where
  | invalidId
  | success
  | notFoundCleanup
deriving Repr, DecidableEq

/-- The state deleteReview acts on: the backend review collection and the
screen's in-memory review list. -/
structure ReviewsState where
  backendReviews : List Review
  localReviews : List Review
deriving Repr, DecidableEq

/-- deleteReview: validates the id, issues the delete; when the backend
holds the document both copies drop it; when the backend reports NotFound
the handler removes the record from local state anyway and reports that the
review was already gone rather than an error. -/
def deleteReview (reviewId : String) (s : ReviewsState) :
    ReviewsState × DeleteOutcome :=
  if reviewId = "" then (s, DeleteOutcome.invalidId)
  else if s.backendReviews.any (fun r => r.id == reviewId) then
    ({ backendReviews := s.backendReviews.filter (fun r => !(r.id == reviewId))
       localReviews := s.localReviews.filter (fun r => !(r.id == reviewId)) },
     DeleteOutcome.success)
  else
    ({ s with localReviews := s.localReviews.filter (fun r => !(r.id == reviewId)) },
     DeleteOutcome.notFoundCleanup)

end GameScope.Profile

namespace GameScope.ProfileTabs

open GameScope

/-! Embedding of the review-edit save path of the routed ProfileScreen
(src/app/(tabs)/profile.tsx): handleUpdateReview. -/

/-- Outcome of handleUpdateReview: the in-memory list afterwards, the
document id and content sent in the update request (none when the edit was
rejected before any call), and whether the save succeeded. -/
structure UpdateReviewResult where
  localReviews : List Review
  backendWrite : Option (String × String)
  accepted : Bool
deriving Repr, DecidableEq

/-- handleUpdateReview: rejects an edit whose trimmed text is empty before
any backend call; otherwise writes the text exactly as entered (untrimmed)
and, on success, patches the matching in-memory record by id with that same
untrimmed text. backendOk models the updateDocument call. -/
def handleUpdateReview (editingReviewId editingReviewText : String)
    (backendOk : Bool) (localReviews : List Review) : UpdateReviewResult :=
  if jsTrim editingReviewText = "" then
    { localReviews := localReviews, backendWrite := none, accepted := false }
  else if backendOk then
    { localReviews := localReviews.map
        (fun r => if r.id == editingReviewId then { r with content := editingReviewText } else r)
      backendWrite := some (editingReviewId, editingReviewText)
      accepted := true }
  else
    { localReviews := localReviews
      backendWrite := some (editingReviewId, editingReviewText)
      accepted := false }

end GameScope.ProfileTabs

namespace GameScope

open GameScope.GameDetail

/-- C1: for every review content whose trimmed length is between 1 and 500,
submitReview succeeds and the resulting review list is the previous list
with exactly one new record prepended, whose content is the trimmed input. -/
theorem submitReview_valid_prepends
    (id : Param) (user : User) (content assignedId now : String)
    (prevReviews : List Review)
    (h1 : 1 ≤ (jsTrim content).length) (h2 : (jsTrim content).length ≤ 500) :
    ∃ r : Review,
      (submitReview id user content assignedId now prevReviews).accepted = true ∧
      (submitReview id user content assignedId now prevReviews).reviews
        = r :: prevReviews ∧
      r.content = jsTrim content := by
  have h0 : ¬ ((jsTrim content).length = 0) := by omega
  have h5 : ¬ ((jsTrim content).length > 500) := by omega
  have hv : validateReviewContent content = true := by
    unfold validateReviewContent
    simp [h0, h5]
  exact ⟨{ id := assignedId
           gameId := paramString id
           userId := user.id
           userName := if user.name = "" then "Anonymous User" else user.name
           content := jsTrim content
           timestamp := now },
         by simp [submitReview, hv], by simp [submitReview, hv], rfl⟩

/-- C1 witness: a concrete valid content, evaluated. -/
theorem submitReview_valid_prepends_witness :
    1 ≤ (jsTrim " A solid RPG. ").length ∧ (jsTrim " A solid RPG. ").length ≤ 500 ∧
    ∃ r : Review,
      (submitReview (Param.str "g1") ⟨"u1", "Ann", "ann@mail.com"⟩ " A solid RPG. "
        "r1" "2024-01-01T00:00:00Z" []).accepted = true ∧
      (submitReview (Param.str "g1") ⟨"u1", "Ann", "ann@mail.com"⟩ " A solid RPG. "
        "r1" "2024-01-01T00:00:00Z" []).reviews = r :: [] ∧
      r.content = jsTrim " A solid RPG. " :=
  ⟨by decide, by decide,
   submitReview_valid_prepends (Param.str "g1") ⟨"u1", "Ann", "ann@mail.com"⟩
     " A solid RPG. " "r1" "2024-01-01T00:00:00Z" [] (by decide) (by decide)⟩

/-- C2: for every review content whose trimmed length is 0 or above 500,
submitReview is rejected before any backend call and the in-memory review
list is unchanged. -/
theorem submitReview_invalid_rejected
    (id : Param) (user : User) (content assignedId now : String)
    (prevReviews : List Review)
    (h : (jsTrim content).length = 0 ∨ 500 < (jsTrim content).length) :
    (submitReview id user content assignedId now prevReviews).accepted = false ∧
    (submitReview id user content assignedId now prevReviews).backendCalled = false ∧
    (submitReview id user content assignedId now prevReviews).reviews = prevReviews := by
  have hv : validateReviewContent content = false := by
    unfold validateReviewContent
    rcases h with h | h
    · simp [h]
    · have h0 : ¬ ((jsTrim content).length = 0) := by omega
      simp [h0, h]
  simp [submitReview, hv]

/-- C2 witness: whitespace-only content, evaluated. -/
theorem submitReview_invalid_rejected_witness :
    ((jsTrim "   ").length = 0 ∨ 500 < (jsTrim "   ").length) ∧
    (submitReview (Param.str "g1") ⟨"u1", "Ann", "ann@mail.com"⟩ "   "
      "r1" "2024-01-01T00:00:00Z" []).accepted = false ∧
    (submitReview (Param.str "g1") ⟨"u1", "Ann", "ann@mail.com"⟩ "   "
      "r1" "2024-01-01T00:00:00Z" []).backendCalled = false ∧
    (submitReview (Param.str "g1") ⟨"u1", "Ann", "ann@mail.com"⟩ "   "
      "r1" "2024-01-01T00:00:00Z" []).reviews = [] :=
  ⟨Or.inl (by decide),
   submitReview_invalid_rejected (Param.str "g1") ⟨"u1", "Ann", "ann@mail.com"⟩
     "   " "r1" "2024-01-01T00:00:00Z" [] (Or.inl (by decide))⟩

/-- C8: when the route id is missing, an empty string, or not a string,
fetchGame raises the invalid-game-id error without issuing any backend
request. -/
theorem fetchGame_invalid_id
    (id : Param) (getDocument : String → Except ErrValue Game)
    (h : id = Param.missing ∨ id = Param.str "" ∨ ∃ l, id = Param.strList l) :
    (fetchGame id getDocument).requests = [] ∧
    (fetchGame id getDocument).thrownMsg = some INVALID_GAME_ID ∧
    (fetchGame id getDocument).game = none := by
  have hv : validateGameId id = false := by
    rcases h with h | h | ⟨l, h⟩ <;> subst h <;> rfl
  simp [fetchGame, hv]

/-- C8 witness: a missing id, evaluated. -/
theorem fetchGame_invalid_id_witness :
    (fetchGame Param.missing (fun _ => Except.error ErrValue.nonObject)).requests = [] ∧
    (fetchGame Param.missing (fun _ => Except.error ErrValue.nonObject)).thrownMsg
      = some INVALID_GAME_ID ∧
    (fetchGame Param.missing (fun _ => Except.error ErrValue.nonObject)).game = none :=
  fetchGame_invalid_id Param.missing (fun _ => Except.error ErrValue.nonObject)
    (Or.inl rfl)

/-- C9: handleError is total over every raw error value, always returns one
of the four configured messages, and degrades to the generic message both
for non-object errors and for messages matching no known substring. -/
theorem handleError_total (e : ErrValue) :
    (handleError e = NETWORK_ERROR ∨ handleError e = AUTHENTICATION_ERROR ∨
     handleError e = GAME_NOT_FOUND ∨ handleError e = GENERIC_ERROR) ∧
    (e = ErrValue.nonObject → handleError e = GENERIC_ERROR) ∧
    (∀ msg, e = ErrValue.obj msg →
      msgIncludes msg "network" = false → msgIncludes msg "fetch" = false →
      msgIncludes msg "unauthorized" = false →
      msgIncludes msg "authentication" = false →
      msgIncludes msg "not found" = false →
      handleError e = GENERIC_ERROR) := by
  cases e with
  | nonObject =>
    refine ⟨Or.inr (Or.inr (Or.inr rfl)), fun _ => rfl, ?_⟩
    intro msg hmsg
    exact absurd hmsg (by simp)
  | obj message =>
    refine ⟨?_, by simp, ?_⟩
    · unfold handleError
      by_cases h1 : (msgIncludes message "network" || msgIncludes message "fetch") = true
      · simp [h1]
      · by_cases h2 :
          (msgIncludes message "unauthorized" || msgIncludes message "authentication") = true
        · simp [h1, h2]
        · by_cases h3 : msgIncludes message "not found" = true
          · simp [h1, h2, h3]
          · simp [h1, h2, h3]
    · intro msg hmsg hn hf hu ha hnf
      injection hmsg with hEq
      subst hEq
      simp [handleError, hn, hf, hu, ha, hnf]

/-- C9 witness: an unclassifiable message falls back to the generic error. -/
theorem handleError_total_witness :
    handleError (ErrValue.obj "boom") = GENERIC_ERROR :=
  (handleError_total (ErrValue.obj "boom")).2.2 "boom" rfl
    (by decide) (by decide) (by decide) (by decide) (by decide)

/-- C3 counterexample: a toggle in the add direction (cached flag false)
issues only a create and no query at all, so the claimed mandatory
pre-toggle query does not happen in both directions. -/
theorem toggleFavorite_add_without_query_counterexample :
    (toggleFavorite ⟨"u1", "Ann", "ann@mail.com"⟩
        ⟨"g1", "Elden Ring", "img", "RPG", "PC", "2022-02-25", "sum"⟩
        (Param.str "g1") ⟨[], false, 0⟩).2
      = [BackendOp.createFavorite "u1" "g1"] ∧
    ∀ op ∈ (toggleFavorite ⟨"u1", "Ann", "ann@mail.com"⟩
        ⟨"g1", "Elden Ring", "img", "RPG", "PC", "2022-02-25", "sum"⟩
        (Param.str "g1") ⟨[], false, 0⟩).2,
      ∀ u g, op ≠ BackendOp.queryFavorites u g := by
  refine ⟨rfl, ?_⟩
  intro op hop u g
  simp only [toggleFavorite] at hop
  simp at hop
  subst hop
  intro hco
  cases hco

/-- C3 amended: the toggle trusts the cached flag to pick its direction; it
queries the backend only in the remove direction, deleting the first match
instead of creating, while the add direction creates with no prior query. -/
theorem toggleFavorite_query_only_on_remove
    (user : User) (game : Game) (id : Param) (s : FavState) :
    (s.isFavorite = false →
      (toggleFavorite user game id s).2
        = [BackendOp.createFavorite user.id (paramString id)]) ∧
    (s.isFavorite = true →
      (toggleFavorite user game id s).2.head?
        = some (BackendOp.queryFavorites user.id (paramString id)) ∧
      ∀ f rest, favoritesFor s.favorites user.id (paramString id) = f :: rest →
        (toggleFavorite user game id s).2
          = [BackendOp.queryFavorites user.id (paramString id),
             BackendOp.deleteFavorite f.id] ∧
        (toggleFavorite user game id s).1.favorites
          = s.favorites.filter (fun x => !(x.id == f.id))) := by
  constructor
  · intro h
    rw [toggleFavorite_of_not_fav user game id s h]
  · intro h
    constructor
    · rcases hm : favoritesFor s.favorites user.id (paramString id) with _ | ⟨f, rest⟩
      · simp only [toggleFavorite, h, if_true, hm]
        rfl
      · rw [toggleFavorite_of_fav_match user game id s f rest h hm]
        rfl
    · intro f rest hm
      rw [toggleFavorite_of_fav_match user game id s f rest h hm]
      exact ⟨rfl, rfl⟩

/-- C4: starting from a state with no favorite for the pair and the cached
flag synced by checkIfFavorite, one toggle adds exactly one matching
favorite, a second toggle removes it restoring the original collection,
and two further toggles return the favorites state (collection and flag)
to the state reached after the first two toggles. -/
theorem toggleFavorite_round_trip
    (user : User) (game : Game) (gid : String) (s0 : FavState)
    (h0 : favoritesFor s0.favorites user.id gid = [])
    (hflag : s0.isFavorite = checkIfFavorite s0.favorites user.id gid)
    (hfresh : ∀ f ∈ s0.favorites, ∀ n, s0.nextId ≤ n → f.id ≠ mkDocId n) :
    (favoritesFor (toggleTimes user game (Param.str gid) 1 s0).favorites
        user.id gid).length = 1 ∧
    (toggleTimes user game (Param.str gid) 2 s0).favorites = s0.favorites ∧
    (toggleTimes user game (Param.str gid) 2 s0).isFavorite = false ∧
    (toggleTimes user game (Param.str gid) 4 s0).favorites
      = (toggleTimes user game (Param.str gid) 2 s0).favorites ∧
    (toggleTimes user game (Param.str gid) 4 s0).isFavorite
      = (toggleTimes user game (Param.str gid) 2 s0).isFavorite := by
  have hfalse : s0.isFavorite = false := by
    rw [hflag]
    simp [checkIfFavorite, h0]
  have step_add : ∀ (a : List Favorite) (n : Nat),
      toggleFavorite user game (Param.str gid) ⟨a, false, n⟩
        = (⟨a ++ [⟨mkDocId n, user.id, gid, game.title, game.image⟩], true, n + 1⟩,
           [BackendOp.createFavorite user.id gid]) := by
    intro a n
    exact toggleFavorite_of_not_fav user game (Param.str gid) ⟨a, false, n⟩ rfl
  have step_remove : ∀ (a : List Favorite) (n : Nat) (f : Favorite)
      (rest : List Favorite),
      favoritesFor a user.id gid = f :: rest →
      toggleFavorite user game (Param.str gid) ⟨a, true, n⟩
        = (⟨a.filter (fun x => !(x.id == f.id)), false, n⟩,
           [BackendOp.queryFavorites user.id gid, BackendOp.deleteFavorite f.id]) := by
    intro a n f rest hm
    exact toggleFavorite_of_fav_match user game (Param.str gid) ⟨a, true, n⟩ f rest rfl hm
  have hm1 : favoritesFor
      (s0.favorites ++ [⟨mkDocId s0.nextId, user.id, gid, game.title, game.image⟩])
      user.id gid
      = [⟨mkDocId s0.nextId, user.id, gid, game.title, game.image⟩] := by
    rw [favoritesFor_append, h0]
    simp [favoritesFor]
  have hm2 : favoritesFor
      (s0.favorites ++ [⟨mkDocId (s0.nextId + 1), user.id, gid, game.title, game.image⟩])
      user.id gid
      = [⟨mkDocId (s0.nextId + 1), user.id, gid, game.title, game.image⟩] := by
    rw [favoritesFor_append, h0]
    simp [favoritesFor]
  have hf1 : (s0.favorites
        ++ [(⟨mkDocId s0.nextId, user.id, gid, game.title, game.image⟩ : Favorite)]).filter
      (fun x => !(x.id
        == (⟨mkDocId s0.nextId, user.id, gid, game.title, game.image⟩ : Favorite).id))
      = s0.favorites :=
    filter_out_appended _ _ (fun x hx => hfresh x hx s0.nextId le_rfl)
  have hf2 : (s0.favorites
        ++ [(⟨mkDocId (s0.nextId + 1), user.id, gid, game.title, game.image⟩ : Favorite)]).filter
      (fun x => !(x.id
        == (⟨mkDocId (s0.nextId + 1), user.id, gid, game.title, game.image⟩ : Favorite).id))
      = s0.favorites :=
    filter_out_appended _ _ (fun x hx => hfresh x hx (s0.nextId + 1) (Nat.le_succ _))
  have u1 : toggleTimes user game (Param.str gid) 1 s0
      = ⟨s0.favorites ++ [⟨mkDocId s0.nextId, user.id, gid, game.title, game.image⟩],
         true, s0.nextId + 1⟩ := by
    show (toggleFavorite user game (Param.str gid) s0).1 = _
    rw [toggleFavorite_of_not_fav user game (Param.str gid) s0 hfalse]
    all_goals rfl
  have u2 : toggleTimes user game (Param.str gid) 2 s0
      = ⟨s0.favorites, false, s0.nextId + 1⟩ := by
    have hstep := step_remove
      (s0.favorites ++ [⟨mkDocId s0.nextId, user.id, gid, game.title, game.image⟩])
      (s0.nextId + 1) ⟨mkDocId s0.nextId, user.id, gid, game.title, game.image⟩ [] hm1
    show (toggleFavorite user game (Param.str gid)
        (toggleTimes user game (Param.str gid) 1 s0)).1 = _
    rw [u1, hstep, hf1]
  have u3 : toggleTimes user game (Param.str gid) 3 s0
      = ⟨s0.favorites ++ [⟨mkDocId (s0.nextId + 1), user.id, gid, game.title, game.image⟩],
         true, s0.nextId + 2⟩ := by
    have hstep := step_add s0.favorites (s0.nextId + 1)
    show (toggleFavorite user game (Param.str gid)
        (toggleTimes user game (Param.str gid) 2 s0)).1 = _
    rw [u2, hstep]
  have u4 : toggleTimes user game (Param.str gid) 4 s0
      = ⟨s0.favorites, false, s0.nextId + 2⟩ := by
    have hstep := step_remove
      (s0.favorites ++ [⟨mkDocId (s0.nextId + 1), user.id, gid, game.title, game.image⟩])
      (s0.nextId + 2) ⟨mkDocId (s0.nextId + 1), user.id, gid, game.title, game.image⟩ [] hm2
    show (toggleFavorite user game (Param.str gid)
        (toggleTimes user game (Param.str gid) 3 s0)).1 = _
    rw [u3, hstep, hf2]
  refine ⟨?_, ?_, ?_, ?_, ?_⟩
  · rw [u1]
    show (favoritesFor
      (s0.favorites ++ [⟨mkDocId s0.nextId, user.id, gid, game.title, game.image⟩])
      user.id gid).length = 1
    rw [hm1]
    rfl
  · rw [u2]
  · rw [u2]
  · rw [u2, u4]
  · rw [u2, u4]

/-- C4 witness: the round trip evaluated from the empty favorites state. -/
theorem toggleFavorite_round_trip_witness :
    (favoritesFor (toggleTimes ⟨"u1", "Ann", "ann@mail.com"⟩
        ⟨"g1", "Elden Ring", "img", "RPG", "PC", "2022-02-25", "sum"⟩
        (Param.str "g1") 1 ⟨[], false, 0⟩).favorites "u1" "g1").length = 1 ∧
    (toggleTimes ⟨"u1", "Ann", "ann@mail.com"⟩
        ⟨"g1", "Elden Ring", "img", "RPG", "PC", "2022-02-25", "sum"⟩
        (Param.str "g1") 2 ⟨[], false, 0⟩).favorites = ([] : List Favorite) ∧
    (toggleTimes ⟨"u1", "Ann", "ann@mail.com"⟩
        ⟨"g1", "Elden Ring", "img", "RPG", "PC", "2022-02-25", "sum"⟩
        (Param.str "g1") 2 ⟨[], false, 0⟩).isFavorite = false ∧
    (toggleTimes ⟨"u1", "Ann", "ann@mail.com"⟩
        ⟨"g1", "Elden Ring", "img", "RPG", "PC", "2022-02-25", "sum"⟩
        (Param.str "g1") 4 ⟨[], false, 0⟩).favorites
      = (toggleTimes ⟨"u1", "Ann", "ann@mail.com"⟩
        ⟨"g1", "Elden Ring", "img", "RPG", "PC", "2022-02-25", "sum"⟩
        (Param.str "g1") 2 ⟨[], false, 0⟩).favorites ∧
    (toggleTimes ⟨"u1", "Ann", "ann@mail.com"⟩
        ⟨"g1", "Elden Ring", "img", "RPG", "PC", "2022-02-25", "sum"⟩
        (Param.str "g1") 4 ⟨[], false, 0⟩).isFavorite
      = (toggleTimes ⟨"u1", "Ann", "ann@mail.com"⟩
        ⟨"g1", "Elden Ring", "img", "RPG", "PC", "2022-02-25", "sum"⟩
        (Param.str "g1") 2 ⟨[], false, 0⟩).isFavorite :=
  toggleFavorite_round_trip ⟨"u1", "Ann", "ann@mail.com"⟩
    ⟨"g1", "Elden Ring", "img", "RPG", "PC", "2022-02-25", "sum"⟩
    "g1" ⟨[], false, 0⟩ rfl rfl (by simp)

/-- C3 amended witness: a remove-direction toggle on a state holding one
matching favorite queries and then deletes exactly that favorite. -/
theorem toggleFavorite_query_only_on_remove_witness :
    (toggleFavorite ⟨"u1", "Ann", "ann@mail.com"⟩
        ⟨"g1", "Elden Ring", "img", "RPG", "PC", "2022-02-25", "sum"⟩
        (Param.str "g1") ⟨[⟨"f1", "u1", "g1", "Elden Ring", "img"⟩], true, 5⟩).2
      = [BackendOp.queryFavorites "u1" "g1", BackendOp.deleteFavorite "f1"] :=
  (((toggleFavorite_query_only_on_remove ⟨"u1", "Ann", "ann@mail.com"⟩
      ⟨"g1", "Elden Ring", "img", "RPG", "PC", "2022-02-25", "sum"⟩
      (Param.str "g1") ⟨[⟨"f1", "u1", "g1", "Elden Ring", "img"⟩], true, 5⟩).2
    rfl).2 ⟨"f1", "u1", "g1", "Elden Ring", "img"⟩ [] (by decide)).1

end GameScope

namespace GameScope.Profile

theorem mem_map_userName (uid nm : String) (l : List Review) :
    ∀ r ∈ l.map (fun x => if x.userId == uid then { x with userName := nm } else x),
      r.userId = uid → r.userName = nm := by
  intro r hr hid
  simp [List.mem_map] at hr
  obtain ⟨x, hx, hfx⟩ := hr
  by_cases hbeq : x.userId = uid
  · rw [if_pos hbeq] at hfx
    subst hfx
    rfl
  · rw [if_neg hbeq] at hfx
    subst hfx
    exact absurd hid hbeq

/-- C5: after a successful display-name update the account name is the new
trimmed name and, when the fan-out succeeds, every review of the user (in
the backend collection and the local list) carries the new userName; when
the fan-out fails the operation still succeeds overall, reporting the
distinct partial-update warning. -/
theorem updateName_fan_out
    (user : User) (newName : String) (fanOutOk : Bool) (s : NameUpdateState)
    (h1 : jsTrim newName ≠ "") (h2 : jsTrim newName ≠ user.name)
    (h3 : (jsTrim newName).length ≤ 50) :
    ((updateName user newName true fanOutOk s).2 = NameOutcome.success ∨
      (updateName user newName true fanOutOk s).2 = NameOutcome.successPartialWarning) ∧
    (updateName user newName true fanOutOk s).1.accountName = jsTrim newName ∧
    (fanOutOk = true →
      (updateName user newName true fanOutOk s).2 = NameOutcome.success ∧
      (∀ r ∈ (updateName user newName true fanOutOk s).1.backendReviews,
        r.userId = user.id → r.userName = jsTrim newName) ∧
      (∀ r ∈ (updateName user newName true fanOutOk s).1.localReviews,
        r.userId = user.id → r.userName = jsTrim newName)) ∧
    (fanOutOk = false →
      (updateName user newName true fanOutOk s).2
        = NameOutcome.successPartialWarning) := by
  have h3' : ¬ ((jsTrim newName).length > 50) := by omega
  cases fanOutOk with
  | false =>
    have hres : updateName user newName true false s
        = ({ s with accountName := jsTrim newName },
           NameOutcome.successPartialWarning) := by
      simp only [updateName]
      rw [if_neg h1, if_neg h2, if_neg h3']
      rfl
    refine ⟨Or.inr (by rw [hres]), by rw [hres], ?_, fun _ => by rw [hres]⟩
    intro hco
    exact absurd hco (by simp)
  | true =>
    have hres : updateName user newName true true s
        = ({ accountName := jsTrim newName
             backendReviews := s.backendReviews.map
               (fun r => if r.userId == user.id then { r with userName := jsTrim newName }
                 else r)
             localReviews := s.localReviews.map
               (fun r => if r.userId == user.id then { r with userName := jsTrim newName }
                 else r) },
           NameOutcome.success) := by
      simp only [updateName]
      rw [if_neg h1, if_neg h2, if_neg h3']
      rfl
    refine ⟨Or.inl (by rw [hres]), by rw [hres], ?_, ?_⟩
    · intro _
      refine ⟨by rw [hres], ?_, ?_⟩
      · rw [hres]
        exact mem_map_userName user.id (jsTrim newName) s.backendReviews
      · rw [hres]
        exact mem_map_userName user.id (jsTrim newName) s.localReviews
    · intro hco
      exact absurd hco (by simp)

/-- C5 witness: a fan-out update evaluated on one owned review. -/
theorem updateName_fan_out_witness :
    jsTrim " Bea " ≠ "" ∧
    (updateName ⟨"u1", "Ann", "ann@mail.com"⟩ " Bea " true true
      ⟨"Ann", [⟨"r1", "g1", "u1", "Ann", "fun", "t1"⟩],
        [⟨"r1", "g1", "u1", "Ann", "fun", "t1"⟩]⟩).1.accountName = jsTrim " Bea " ∧
    (updateName ⟨"u1", "Ann", "ann@mail.com"⟩ " Bea " true true
      ⟨"Ann", [⟨"r1", "g1", "u1", "Ann", "fun", "t1"⟩],
        [⟨"r1", "g1", "u1", "Ann", "fun", "t1"⟩]⟩).2 = NameOutcome.success :=
  ⟨by decide,
   (updateName_fan_out ⟨"u1", "Ann", "ann@mail.com"⟩ " Bea " true
     ⟨"Ann", [⟨"r1", "g1", "u1", "Ann", "fun", "t1"⟩],
       [⟨"r1", "g1", "u1", "Ann", "fun", "t1"⟩]⟩
     (by decide) (by decide) (by decide)).2.1,
   ((updateName_fan_out ⟨"u1", "Ann", "ann@mail.com"⟩ " Bea " true
     ⟨"Ann", [⟨"r1", "g1", "u1", "Ann", "fun", "t1"⟩],
       [⟨"r1", "g1", "u1", "Ann", "fun", "t1"⟩]⟩
     (by decide) (by decide) (by decide)).2.2.1 rfl).1⟩

theorem any_id_filter_ne (l : List Review) (rid : String) :
    (l.filter (fun r => !(r.id == rid))).any (fun r => r.id == rid) = false := by
  induction l with
  | nil => rfl
  | cons x xs ih =>
    cases h : x.id == rid <;> simp [List.filter_cons, h, ih]

theorem filter_ne_idem (l : List Review) (rid : String) :
    ((l.filter (fun r => !(r.id == rid))).filter (fun r => !(r.id == rid)))
      = l.filter (fun r => !(r.id == rid)) := by
  induction l with
  | nil => rfl
  | cons x xs ih =>
    cases h : x.id == rid <;> simp [List.filter_cons, h, ih]

/-- C6: deleting an existing review succeeds, deleting the same id again is
downgraded to the not-found local cleanup rather than an error, and the
state (local list and backend collection) after the second delete equals
the state after the first. -/
theorem deleteReview_idempotent
    (reviewId : String) (s : ReviewsState)
    (hid : reviewId ≠ "")
    (hex : s.backendReviews.any (fun r => r.id == reviewId) = true) :
    (deleteReview reviewId s).2 = DeleteOutcome.success ∧
    (deleteReview reviewId (deleteReview reviewId s).1).2
      = DeleteOutcome.notFoundCleanup ∧
    (deleteReview reviewId (deleteReview reviewId s).1).1.localReviews
      = (deleteReview reviewId s).1.localReviews ∧
    (deleteReview reviewId (deleteReview reviewId s).1).1.backendReviews
      = (deleteReview reviewId s).1.backendReviews := by
  have d1 : deleteReview reviewId s
      = (⟨s.backendReviews.filter (fun r => !(r.id == reviewId)),
          s.localReviews.filter (fun r => !(r.id == reviewId))⟩,
         DeleteOutcome.success) := by
    unfold deleteReview
    rw [if_neg hid, if_pos hex]
  have hany := any_id_filter_ne s.backendReviews reviewId
  have d2 : deleteReview reviewId
      (⟨s.backendReviews.filter (fun r => !(r.id == reviewId)),
        s.localReviews.filter (fun r => !(r.id == reviewId))⟩ : ReviewsState)
      = (⟨s.backendReviews.filter (fun r => !(r.id == reviewId)),
          (s.localReviews.filter (fun r => !(r.id == reviewId))).filter
            (fun r => !(r.id == reviewId))⟩,
         DeleteOutcome.notFoundCleanup) := by
    unfold deleteReview
    rw [if_neg hid, if_neg (by simp [hany])]
  refine ⟨by rw [d1], ?_, ?_, ?_⟩
  · rw [d1]
    show (deleteReview reviewId
      (⟨s.backendReviews.filter (fun r => !(r.id == reviewId)),
        s.localReviews.filter (fun r => !(r.id == reviewId))⟩ : ReviewsState)).2
      = DeleteOutcome.notFoundCleanup
    rw [d2]
  · rw [d1]
    show (deleteReview reviewId
      (⟨s.backendReviews.filter (fun r => !(r.id == reviewId)),
        s.localReviews.filter (fun r => !(r.id == reviewId))⟩ : ReviewsState)).1.localReviews
      = s.localReviews.filter (fun r => !(r.id == reviewId))
    rw [d2]
    exact filter_ne_idem s.localReviews reviewId
  · rw [d1]
    show (deleteReview reviewId
      (⟨s.backendReviews.filter (fun r => !(r.id == reviewId)),
        s.localReviews.filter (fun r => !(r.id == reviewId))⟩ : ReviewsState)).1.backendReviews
      = s.backendReviews.filter (fun r => !(r.id == reviewId))
    rw [d2]

/-- C6 witness: a double delete evaluated on a one-review state. -/
theorem deleteReview_idempotent_witness :
    ("r1" : String) ≠ "" ∧
    (deleteReview "r1"
      (⟨[⟨"r1", "g1", "u1", "Ann", "fun", "t1"⟩],
        [⟨"r1", "g1", "u1", "Ann", "fun", "t1"⟩]⟩ : ReviewsState)).2
      = DeleteOutcome.success ∧
    (deleteReview "r1" (deleteReview "r1"
      (⟨[⟨"r1", "g1", "u1", "Ann", "fun", "t1"⟩],
        [⟨"r1", "g1", "u1", "Ann", "fun", "t1"⟩]⟩ : ReviewsState)).1).2
      = DeleteOutcome.notFoundCleanup :=
  ⟨by decide,
   (deleteReview_idempotent "r1"
     ⟨[⟨"r1", "g1", "u1", "Ann", "fun", "t1"⟩],
       [⟨"r1", "g1", "u1", "Ann", "fun", "t1"⟩]⟩ (by decide) (by decide)).1,
   (deleteReview_idempotent "r1"
     ⟨[⟨"r1", "g1", "u1", "Ann", "fun", "t1"⟩],
       [⟨"r1", "g1", "u1", "Ann", "fun", "t1"⟩]⟩ (by decide) (by decide)).2.1⟩

end GameScope.Profile

namespace GameScope.ProfileTabs

/-- C10: the profile review-update save path persists the edited content
exactly as entered (untrimmed, with no upper length bound), patching the
matching in-memory record with that same content; its only client-side
precondition is a non-empty trimmed text, which when violated blocks the
edit before any backend write. -/
theorem handleUpdateReview_untrimmed
    (editingReviewId editingReviewText : String) (backendOk : Bool)
    (localReviews : List Review) :
    (jsTrim editingReviewText ≠ "" →
      (handleUpdateReview editingReviewId editingReviewText backendOk
          localReviews).backendWrite = some (editingReviewId, editingReviewText) ∧
      (backendOk = true →
        (handleUpdateReview editingReviewId editingReviewText backendOk
            localReviews).localReviews
          = localReviews.map (fun r =>
              if r.id == editingReviewId then { r with content := editingReviewText }
              else r) ∧
        ∀ r ∈ (handleUpdateReview editingReviewId editingReviewText backendOk
            localReviews).localReviews,
          r.id = editingReviewId → r.content = editingReviewText)) ∧
    (jsTrim editingReviewText = "" →
      handleUpdateReview editingReviewId editingReviewText backendOk localReviews
        = { localReviews := localReviews, backendWrite := none, accepted := false }) := by
  constructor
  · intro h
    constructor
    · cases backendOk <;> simp [handleUpdateReview, h]
    · intro hb
      subst hb
      refine ⟨by simp [handleUpdateReview, h], ?_⟩
      intro r hr hid
      simp [handleUpdateReview, h, List.mem_map] at hr
      obtain ⟨x, hx, hfx⟩ := hr
      by_cases hbeq : x.id = editingReviewId
      · rw [if_pos hbeq] at hfx
        subst hfx
        rfl
      · rw [if_neg hbeq] at hfx
        subst hfx
        exact absurd hid hbeq
  · intro h
    simp [handleUpdateReview, h]

/-- C10 witness: content with surrounding whitespace is written and patched
exactly as entered. -/
theorem handleUpdateReview_untrimmed_witness :
    jsTrim "  hi  " ≠ "" ∧
    (handleUpdateReview "r1" "  hi  " true
        [{ id := "r1", gameId := "g1", userId := "u1", userName := "Ann",
           content := "old", timestamp := "t" }]).backendWrite
      = some ("r1", "  hi  ") :=
  ⟨by decide,
   ((handleUpdateReview_untrimmed "r1" "  hi  " true
      [{ id := "r1", gameId := "g1", userId := "u1", userName := "Ann",
         content := "old", timestamp := "t" }]).1 (by decide)).1⟩

end GameScope.ProfileTabs

namespace GameScope

/-- C7 counterexample: a failing game-catalog fetch replaces a non-empty
in-memory games list with the empty list, so a failing list fetch does not
always leave the previous records untouched. -/
theorem fetchGames_error_blanks_counterexample :
    Home.fetchGames (Except.error GameDetail.ErrValue.nonObject) "fallback_0"
        [⟨"g1", "Elden Ring", "img", "RPG", "PC", "2022-02-25", "sum"⟩] = [] ∧
    [(⟨"g1", "Elden Ring", "img", "RPG", "PC", "2022-02-25", "sum"⟩ : Game)]
      ≠ ([] : List Game) :=
  ⟨rfl, by simp⟩

/-- C7 amended: on a failed fetch the game-detail review list keeps its
previous in-memory records unchanged, while the game-catalog fetch instead
resets its in-memory list to empty. -/
theorem list_fetch_failure_amended :
    (∀ (id : Param) (e : GameDetail.ErrValue) (prev : List Review),
      GameDetail.fetchReviews id (Except.error e) prev = prev) ∧
    (∀ (e : GameDetail.ErrValue) (fallbackId : String) (prev : List Game),
      Home.fetchGames (Except.error e) fallbackId prev = []) := by
  constructor
  · intro id e prev
    unfold GameDetail.fetchReviews
    split
    · rfl
    · rfl
  · intro e fallbackId prev
    rfl

end GameScope
